import Mathlib

/-!
Shallow embedding of the `pin` terminal-spinner package (pin.go) and
verification of its specification.

Modelling conventions:
* Go `type Color int` and `type Position int` become `Int`, with the
  declared constants as definitions, so that totality over all integer
  values can be stated.
* Runes become `Char`, `[]rune` becomes `List Char`.
* Every write the code performs goes through the Go `fmt` package
  (`fmt.Println` / `fmt.Printf` / `fmt.Print`), which writes to the
  process's standard output.  A write is recorded as a `Write` event
  carrying the numeric id of the sink it targets; the process stdout has
  sink id 0.  The `io.Writer` stored in `Pin.out` is pure data: a sink id.
* The ambient process state (the package-level `ForceInteractive` flag and
  the answer `os.File.Stat` gives about a sink being a character device)
  is an `Env` passed to each operation, mirroring that the code consults
  it anew on every call.
* Goroutines: `Start` reports which background task it launches
  (`BgTask.ctxWaiter` for the non-interactive wait-for-cancel task,
  `BgTask.animator` for the animation loop) and what the returned cancel
  function does (`CancelBehavior`).  The animation loop's per-tick body is
  `renderTick`; a tick is `none` where Go would panic (index out of
  range).  `onContextCancel` is what the launched task does when the
  context is cancelled.
* The mutex `messageMu`, the `stopChan` send and `wg.Wait` have no
  observable effect in the sequential semantics beyond ordering, which the
  returned state/output lists already fix.
-/

namespace pin

/-- Go `type Color int`. -/
abbrev Color := Int

def ColorDefault : Color := 0

def ColorBlack : Color := 1

def ColorRed : Color := 2

def ColorGreen : Color := 3

def ColorYellow : Color := 4

def ColorBlue : Color := 5

def ColorMagenta : Color := 6

def ColorCyan : Color := 7

def ColorGray : Color := 8

def ColorWhite : Color := 9

/-- Go `type Position int`. -/
abbrev Position := Int

def PositionLeft : Position := 0

def PositionRight : Position := 1

/-- An `io.Writer` value, reduced to the identity of the sink it denotes.
The process's standard output (`os.Stdout`) is sink 0. -/
structure Writer where
  sinkId : Nat
deriving DecidableEq

/-- `os.Stdout` as a `Writer` value. -/
def osStdout : Writer := ⟨0⟩

/-- One write the program performs: the sink id it targets and the bytes. -/
structure Write where
  sink : Nat
  data : String
deriving DecidableEq

/-- The sink id the Go `fmt` package writes to: the process stdout. -/
def stdoutSink : Nat := 0

/-- `fmt.Println s` (one argument): writes `s` plus a newline to stdout. -/
def fmtPrintln (s : String) : Write := ⟨stdoutSink, s ++ "\n"⟩

/-- `fmt.Print s` for a plain string: writes `s` to stdout. -/
def fmtPrint (s : String) : Write := ⟨stdoutSink, s⟩

/-- Ambient process state consulted by `isTerminal`:
the package-level `ForceInteractive` flag, and for each sink id whether it
is an `*os.File` whose `Stat` succeeds and reports `os.ModeCharDevice`. -/
structure Env where
  ForceInteractive : Bool
  charDevice : Nat → Bool

/-- Go struct `Pin` (the fields `messageMu`, `stopChan`, `wg` are
concurrency primitives with no data content; the Go field `prefix` is
named `prefixText` here because `prefix` is not a usable Lean name). -/
structure Pin where
  frames : List Char
  current : Nat
  message : String
  isRunning : Bool
  spinnerColor : Color
  textColor : Color
  doneSymbol : Char
  doneSymbolColor : Color
  failSymbol : Char
  failSymbolColor : Color
  failColor : Color
  prefixText : String
  prefixColor : Color
  separator : String
  separatorColor : Color
  position : Position
  out : Writer
deriving DecidableEq

/-- Go `var defaultFrames = []rune{...}`. -/
def defaultFrames : List Char :=
  ['⠋', '⠙', '⠹', '⠸', '⠼', '⠴', '⠦', '⠧', '⠇', '⠏']

/-- The functional options (`type Option func(*Pin)`); each constructor is
one of the exported `With...` option builders. -/
inductive Opt where
  | withSpinnerColor (color : Color)
  | withTextColor (color : Color)
  | withDoneSymbol (symbol : Char)
  | withDoneSymbolColor (color : Color)
  | withPrefix (s : String)
  | withPrefixColor (color : Color)
  | withSeparator (s : String)
  | withSeparatorColor (color : Color)
  | withPosition (pos : Position)
  | withFailSymbol (symbol : Char)
  | withFailSymbolColor (color : Color)
  | withFailColor (color : Color)
  | withSpinnerFrames (frames : List Char)
  | withWriter (w : Writer)
deriving DecidableEq

/-- Applying one functional option to a `Pin` (the body of each
`With...` closure). -/
def applyOpt (p : Pin) : Opt → Pin
  | .withSpinnerColor c => { p with spinnerColor := c }
  | .withTextColor c => { p with textColor := c }
  | .withDoneSymbol s => { p with doneSymbol := s }
  | .withDoneSymbolColor c => { p with doneSymbolColor := c }
  | .withPrefix s => { p with prefixText := s }
  | .withPrefixColor c => { p with prefixColor := c }
  | .withSeparator s => { p with separator := s }
  | .withSeparatorColor c => { p with separatorColor := c }
  | .withPosition pos => { p with position := pos }
  | .withFailSymbol s => { p with failSymbol := s }
  | .withFailSymbolColor c => { p with failSymbolColor := c }
  | .withFailColor c => { p with failColor := c }
  | .withSpinnerFrames fs => { p with frames := fs }
  | .withWriter w => { p with out := w }

/-- The struct literal inside `New` (defaults before options are applied);
`current` is the Go zero value 0, `isRunning` the zero value false. -/
def defaultPin (message : String) : Pin :=
  { frames := defaultFrames
    current := 0
    message := message
    isRunning := false
    spinnerColor := ColorDefault
    textColor := ColorDefault
    doneSymbol := '✓'
    doneSymbolColor := ColorGreen
    failSymbol := '✖'
    failSymbolColor := ColorRed
    failColor := ColorDefault
    prefixText := ""
    prefixColor := ColorDefault
    separator := "›"
    separatorColor := ColorWhite
    position := PositionLeft
    out := osStdout }

/-- Go `func New(message string, opts ...Option) *Pin`. -/
def New (message : String) (opts : List Opt) : Pin :=
  opts.foldl applyOpt (defaultPin message)

/-- Go `func (c Color) getColorCode() string` (the switch, in source
order, with the default branch returning the empty string). -/
def getColorCode (c : Color) : String :=
  if c = ColorBlack then "\x1b[30m"
  else if c = ColorRed then "\x1b[31m"
  else if c = ColorGreen then "\x1b[32m"
  else if c = ColorYellow then "\x1b[33m"
  else if c = ColorBlue then "\x1b[34m"
  else if c = ColorMagenta then "\x1b[35m"
  else if c = ColorCyan then "\x1b[36m"
  else if c = ColorGray then "\x1b[90m"
  else if c = ColorWhite then "\x1b[37m"
  else ""

/-- Go `func (p *Pin) getSeparatorColorCode() string`. -/
def getSeparatorColorCode (p : Pin) : String :=
  getColorCode p.separatorColor

/-- Go `func isTerminal(w io.Writer) bool`: `ForceInteractive` first, then
whether the writer is an `*os.File` whose `Stat` reports a char device. -/
def isTerminal (env : Env) (w : Writer) : Bool :=
  if env.ForceInteractive then true else env.charDevice w.sinkId

/-- Go `func (p *Pin) buildPrefixPart() string`. -/
def buildPrefixPart (p : Pin) : String :=
  if p.prefixText = "" then ""
  else
    getColorCode p.prefixColor ++ p.prefixText ++ "\x1b[0m" ++ " " ++
      getSeparatorColorCode p ++ p.separator ++ "\x1b[0m" ++ " "

/-- The `msgColorCode` selection inside `printResult`: the fail color is
used exactly when the symbol being printed equals `p.failSymbol` and a
fail color was configured; otherwise the text color. -/
def printResultMsgColor (p : Pin) (symbol : Char) : String :=
  if symbol = p.failSymbol ∧ p.failColor ≠ ColorDefault then getColorCode p.failColor
  else getColorCode p.textColor

/-- Go `func (p *Pin) printResult(msg string, symbol rune, symbolColor Color)`:
one `fmt.Printf` of the final line, format chosen by `p.position`. -/
def printResult (p : Pin) (msg : String) (symbol : Char) (symbolColor : Color) : Write :=
  let reset := "\x1b[0m"
  let msgColorCode := printResultMsgColor p symbol
  let symColorCode := getColorCode symbolColor
  let prefixPart := buildPrefixPart p
  if p.position = PositionLeft then
    ⟨stdoutSink, prefixPart ++ symColorCode ++ String.singleton symbol ++ reset ++ " " ++
      msgColorCode ++ msg ++ reset ++ "\n"⟩
  else
    ⟨stdoutSink, prefixPart ++ msgColorCode ++ msg ++ reset ++ " " ++
      symColorCode ++ String.singleton symbol ++ reset ++ "\n"⟩

/-- Go `func (p *Pin) handleNonTerminal(message ...string) bool`: when the
writer is non-terminal, prints `message[0]` (if any) to stdout and reports
true; otherwise reports false.  Returns (result, writes performed). -/
def handleNonTerminal (env : Env) (message : List String) (p : Pin) : Bool × List Write :=
  if ¬ isTerminal env p.out then
    (true,
      match message with
      | [] => []
      | m :: _ => [fmtPrintln m])
  else
    (false, [])

/-- Which background goroutine a `Start` call launches. -/
inductive BgTask where
  /-- the non-interactive goroutine: blocks on `ctx.Done()`, then sets
  `isRunning = false`; no output. -/
  | ctxWaiter
  /-- the animation-loop goroutine. -/
  | animator
deriving DecidableEq

/-- What the `context.CancelFunc` returned by `Start` does when invoked. -/
inductive CancelBehavior where
  /-- `func() {}`: cancels nothing. -/
  | inert
  /-- the `cancel` of `context.WithCancel(ctx)`: cancels the context the
  launched goroutine selects on. -/
  | cancelCtx
deriving DecidableEq

/-- Everything a `Start` call produces: the updated receiver state, the
writes performed synchronously, the goroutine launched (if any), and the
behavior of the returned cancel function. -/
structure StartResult where
  pin : Pin
  output : List Write
  task : Option BgTask
  cancel : CancelBehavior
deriving DecidableEq

/-- Go `func (p *Pin) Start(ctx context.Context) context.CancelFunc`.
Already running: plain no-op returning `func() {}`.  Non-terminal writer:
mark running, `fmt.Println` the current message, launch the ctx-waiter
goroutine, return `func() {}`.  Terminal writer: mark running, launch the
animation goroutine on a derived cancellable context, return its cancel. -/
def Start (env : Env) (p : Pin) : StartResult :=
  if p.isRunning then
    ⟨p, [], none, .inert⟩
  else if ¬ isTerminal env p.out then
    ⟨{ p with isRunning := true }, [fmtPrintln p.message], some .ctxWaiter, .inert⟩
  else
    ⟨{ p with isRunning := true }, [], some .animator, .cancelCtx⟩

/-- What the goroutine launched by `Start` does when the context it
watches is cancelled: the ctx-waiter clears the running flag silently; the
animation loop clears the flag and prints a line-clear sequence. -/
def onContextCancel : BgTask → Pin → Pin × List Write
  | .ctxWaiter, p => ({ p with isRunning := false }, [])
  | .animator, p => ({ p with isRunning := false }, [fmtPrint "\r\x1b[K"])

/-- The formatted line of one animation tick (`fmt.Printf` in the ticker
case of `Start`'s loop), for the glyph `frame`. -/
def renderFrameLine (p : Pin) (frame : Char) : String :=
  let reset := "\x1b[0m"
  let spinnerColorCode := getColorCode p.spinnerColor
  let textColorCode := getColorCode p.textColor
  let prefixPart := buildPrefixPart p
  if p.position = PositionLeft then
    "\r\x1b[K" ++ prefixPart ++ spinnerColorCode ++ String.singleton frame ++ reset ++ " " ++
      textColorCode ++ p.message ++ reset
  else
    "\r\x1b[K" ++ prefixPart ++ textColorCode ++ p.message ++ reset ++ " " ++
      spinnerColorCode ++ String.singleton frame ++ reset ++ " "

/-- One iteration of the ticker case in `Start`'s animation loop: reads
`p.frames[p.current]` (Go panics when out of bounds, modelled as `none`),
prints the rendered line, and advances `current` modulo the length. -/
def renderTick (p : Pin) : Option (Pin × Write) :=
  if h : p.current < p.frames.length then
    some ({ p with current := (p.current + 1) % p.frames.length },
      ⟨stdoutSink, renderFrameLine p (p.frames.get ⟨p.current, h⟩)⟩)
  else
    none

/-- `n` consecutive animation ticks; `none` as soon as one tick panics. -/
def runTicks : Nat → Pin → Option (Pin × List Write)
  | 0, p => some (p, [])
  | n + 1, p =>
    match renderTick p with
    | none => none
    | some (q, w) =>
      match runTicks n q with
      | none => none
      | some (r, ws) => some (r, w :: ws)

/-- Go `func (p *Pin) Stop(message ...string)`: `handleNonTerminal` first;
then the not-running guard; then clear the flag, signal and join the
animation goroutine, clear the line, and print the done-symbol result line
when a message was given.  Returns (new state, writes). -/
def Stop (env : Env) (message : List String) (p : Pin) : Pin × List Write :=
  let h := handleNonTerminal env message p
  if h.1 then (p, h.2)
  else if ¬ p.isRunning then (p, [])
  else
    let p1 := { p with isRunning := false }
    (p1,
      [fmtPrint "\r\x1b[K"] ++
        match message with
        | [] => []
        | m :: _ => [printResult p1 m p1.doneSymbol p1.doneSymbolColor])

/-- Go `func (p *Pin) Fail(message ...string)`: textually the same body as
`Stop` with the fail symbol/color pair in the `printResult` call. -/
def Fail (env : Env) (message : List String) (p : Pin) : Pin × List Write :=
  let h := handleNonTerminal env message p
  if h.1 then (p, h.2)
  else if ¬ p.isRunning then (p, [])
  else
    let p1 := { p with isRunning := false }
    (p1,
      [fmtPrint "\r\x1b[K"] ++
        match message with
        | [] => []
        | m :: _ => [printResult p1 m p1.failSymbol p1.failSymbolColor])

/-- Go `func (p *Pin) UpdateMessage(message string)`: store the new
message under the lock; when the writer is non-terminal also
`fmt.Println` it.  There is no running-state check. -/
def UpdateMessage (env : Env) (message : String) (p : Pin) : Pin × List Write :=
  let p1 := { p with message := message }
  if ¬ isTerminal env p.out then (p1, [fmtPrintln message])
  else (p1, [])

/-- Spec-side definition for the refinement claim about `Stop`/`Fail`:
the single halt protocol of spec 4.3, parameterised by the symbol/color
pair, against which both methods are compared. -/
def haltProtocolSpec (env : Env) (message : List String) (p : Pin)
    (symbol : Char) (symbolColor : Color) : Pin × List Write :=
  let h := handleNonTerminal env message p
  if h.1 then (p, h.2)
  else if ¬ p.isRunning then (p, [])
  else
    let p1 := { p with isRunning := false }
    (p1,
      [fmtPrint "\r\x1b[K"] ++
        match message with
        | [] => []
        | m :: _ => [printResult p1 m symbol symbolColor])

/-- Modelled from the spec: the accessor `Message() -> string` is absent
from the source snapshot (only the tests call it); spec 4.5 defines it as
a read-only accessor of the stored message. -/
def Message (p : Pin) : String := p.message

/-- Modelled from the spec: the accessor `IsRunning() -> boolean` is
absent from the source snapshot (only the tests call it); spec 4.5
defines it as a read-only accessor of the running flag. -/
def IsRunning (p : Pin) : Bool := p.isRunning

end pin

/-! ## Helper lemmas -/

/-- No functional option writes the `message` field. -/
lemma applyOpt_message (p : pin.Pin) (o : pin.Opt) :
    (pin.applyOpt p o).message = p.message := by
  cases o <;> rfl

/-- Folding any list of options preserves the `message` field. -/
lemma foldl_applyOpt_message (opts : List pin.Opt) :
    ∀ p : pin.Pin, (opts.foldl pin.applyOpt p).message = p.message := by
  induction opts with
  | nil => intro p; rfl
  | cons o os ih =>
    intro p
    rw [List.foldl_cons, ih, applyOpt_message]

/-- A tick from an in-bounds index lands on the successor index modulo the
frame count, with frames unchanged. -/
lemma renderTick_step (p : pin.Pin) (h : p.current < p.frames.length) :
    pin.renderTick p =
      some ({ p with current := (p.current + 1) % p.frames.length },
        ⟨pin.stdoutSink, pin.renderFrameLine p (p.frames.get ⟨p.current, h⟩)⟩) := by
  unfold pin.renderTick
  rw [dif_pos h]

/-- Any number of ticks from an in-bounds index succeeds (no panic) and
keeps the index in bounds. -/
lemma runTicks_safe (n : Nat) :
    ∀ p : pin.Pin, 1 ≤ p.frames.length → p.current < p.frames.length →
      ∃ q ws, pin.runTicks n p = some (q, ws) ∧
        q.current < q.frames.length ∧ q.frames = p.frames := by
  induction n with
  | zero => intro p _ h2; exact ⟨p, [], rfl, h2, rfl⟩
  | succ n ih =>
    intro p h1 h2
    have hlen : 0 < p.frames.length := h1
    obtain ⟨q, ws, hrun, hq1, hq2⟩ :=
      ih { p with current := (p.current + 1) % p.frames.length } h1
        (Nat.mod_lt (p.current + 1) hlen)
    refine ⟨q, ⟨pin.stdoutSink, pin.renderFrameLine p (p.frames.get ⟨p.current, h2⟩)⟩ :: ws,
      ?_, hq1, hq2⟩
    unfold pin.runTicks
    rw [renderTick_step p h2]
    simp only [hrun]

/-! ## Claim theorems -/

/-- C6: for every spinner that is already running, calling `Start` again
is a no-op: the state is unchanged, nothing is written, no second
background task is launched, and the returned cancel function is inert. -/
theorem start_when_running_is_noop (env : pin.Env) (p : pin.Pin)
    (h : p.isRunning = true) :
    pin.Start env p = ⟨p, [], none, pin.CancelBehavior.inert⟩ := by
  simp [pin.Start, h]

/-- Witness for C6 at a concrete running spinner. -/
theorem start_when_running_is_noop_witness :
    ({ pin.defaultPin "m" with isRunning := true } : pin.Pin).isRunning = true ∧
    pin.Start ⟨false, fun _ => false⟩ { pin.defaultPin "m" with isRunning := true } =
      ⟨{ pin.defaultPin "m" with isRunning := true }, [], none, pin.CancelBehavior.inert⟩ :=
  ⟨rfl, start_when_running_is_noop _ _ rfl⟩

/-- C8: `New` stores the message unchanged (for every option list),
applies the documented defaults (default braille frames, ✓ in green,
✖ in red, separator "›" in white, glyph-before-text, stdout), and then
applies each supplied option in sequence, options never touching the
message field. -/
theorem new_stores_message_applies_defaults_then_options
    (M : String) (opts : List pin.Opt) (o : pin.Opt) :
    pin.Message (pin.New M opts) = M ∧
    pin.New M [] = pin.defaultPin M ∧
    (pin.defaultPin M).frames = pin.defaultFrames ∧
    (pin.defaultPin M).doneSymbol = '✓' ∧
    (pin.defaultPin M).doneSymbolColor = pin.ColorGreen ∧
    (pin.defaultPin M).failSymbol = '✖' ∧
    (pin.defaultPin M).failSymbolColor = pin.ColorRed ∧
    (pin.defaultPin M).separator = "›" ∧
    (pin.defaultPin M).separatorColor = pin.ColorWhite ∧
    (pin.defaultPin M).position = pin.PositionLeft ∧
    (pin.defaultPin M).out = pin.osStdout ∧
    pin.New M (opts ++ [o]) = pin.applyOpt (pin.New M opts) o ∧
    (pin.applyOpt (pin.New M opts) o).message = (pin.New M opts).message := by
  refine ⟨?_, rfl, rfl, rfl, rfl, rfl, rfl, rfl, rfl, rfl, rfl, ?_, ?_⟩
  · exact foldl_applyOpt_message opts (pin.defaultPin M)
  · rw [pin.New, pin.New, List.foldl_append]
    rfl
  · exact applyOpt_message _ o

/-- C9: whenever the frame sequence is non-empty and the frame index is
in bounds, one tick reads an in-bounds glyph and advances the index
modulo the length, and any number of ticks succeeds with the index
staying inside [0, length) — the loop never panics. -/
theorem animation_ticks_stay_in_bounds (p : pin.Pin) (n : Nat)
    (h1 : 1 ≤ p.frames.length) (h2 : p.current < p.frames.length) :
    (∃ q w, pin.renderTick p = some (q, w) ∧
      q.current = (p.current + 1) % p.frames.length ∧ q.frames = p.frames) ∧
    (∃ q ws, pin.runTicks n p = some (q, ws) ∧
      q.current < q.frames.length ∧ q.frames = p.frames) :=
  ⟨⟨_, _, renderTick_step p h2, rfl, rfl⟩, runTicks_safe n p h1 h2⟩

/-- Witness for C9: a freshly constructed spinner with the default
10-glyph frame sequence ticks three times without panicking. -/
theorem animation_ticks_stay_in_bounds_witness :
    1 ≤ (pin.defaultPin "x").frames.length ∧
    (pin.defaultPin "x").current < (pin.defaultPin "x").frames.length ∧
    ((∃ q w, pin.renderTick (pin.defaultPin "x") = some (q, w) ∧
        q.current = ((pin.defaultPin "x").current + 1) % (pin.defaultPin "x").frames.length ∧
        q.frames = (pin.defaultPin "x").frames) ∧
      (∃ q ws, pin.runTicks 3 (pin.defaultPin "x") = some (q, ws) ∧
        q.current < q.frames.length ∧ q.frames = (pin.defaultPin "x").frames)) :=
  ⟨by decide, by decide,
    animation_ticks_stay_in_bounds (pin.defaultPin "x") 3 (by decide) (by decide)⟩

/-- C10: the color-code mapping is total over the integers: the nine
named non-default colors map to their fixed SGR sequences and every other
integer (including `ColorDefault`) maps to the empty string. -/
theorem getColorCode_total_mapping :
    pin.getColorCode pin.ColorDefault = "" ∧
    pin.getColorCode pin.ColorBlack = "\x1b[30m" ∧
    pin.getColorCode pin.ColorRed = "\x1b[31m" ∧
    pin.getColorCode pin.ColorGreen = "\x1b[32m" ∧
    pin.getColorCode pin.ColorYellow = "\x1b[33m" ∧
    pin.getColorCode pin.ColorBlue = "\x1b[34m" ∧
    pin.getColorCode pin.ColorMagenta = "\x1b[35m" ∧
    pin.getColorCode pin.ColorCyan = "\x1b[36m" ∧
    pin.getColorCode pin.ColorGray = "\x1b[90m" ∧
    pin.getColorCode pin.ColorWhite = "\x1b[37m" ∧
    ∀ c : pin.Color, c ≠ pin.ColorBlack → c ≠ pin.ColorRed → c ≠ pin.ColorGreen →
      c ≠ pin.ColorYellow → c ≠ pin.ColorBlue → c ≠ pin.ColorMagenta →
      c ≠ pin.ColorCyan → c ≠ pin.ColorGray → c ≠ pin.ColorWhite →
      pin.getColorCode c = "" := by
  refine ⟨by decide, by decide, by decide, by decide, by decide, by decide, by decide,
    by decide, by decide, by decide, ?_⟩
  intro c h1 h2 h3 h4 h5 h6 h7 h8 h9
  simp [pin.getColorCode, h1, h2, h3, h4, h5, h6, h7, h8, h9]

/-- Witness for C10: the out-of-range value 42 maps to the empty string. -/
theorem getColorCode_total_mapping_witness :
    (42 : pin.Color) ≠ pin.ColorBlack ∧ (42 : pin.Color) ≠ pin.ColorWhite ∧
    pin.getColorCode 42 = "" :=
  ⟨by decide, by decide,
    getColorCode_total_mapping.2.2.2.2.2.2.2.2.2.2 42 (by decide) (by decide) (by decide)
      (by decide) (by decide) (by decide) (by decide) (by decide) (by decide)⟩

/-- C1 (code evaluated at the failing input): a spinner started on a
non-interactive destination, when stopped or failed with a final message,
writes exactly the one plain line with a trailing newline — but the
running flag is NOT cleared: `IsRunning` still reports true after the
call, because `handleNonTerminal` returns before the flag is touched. -/
theorem stop_fail_nonInteractive_leave_running_flag_set :
    (pin.Stop ⟨false, fun _ => false⟩ ["Done"]
        (pin.Start ⟨false, fun _ => false⟩ (pin.New "Doing" [pin.Opt.withWriter ⟨1⟩])).pin).2 =
      [⟨pin.stdoutSink, "Done\n"⟩] ∧
    (pin.Stop ⟨false, fun _ => false⟩ []
        (pin.Start ⟨false, fun _ => false⟩ (pin.New "Doing" [pin.Opt.withWriter ⟨1⟩])).pin).2 = [] ∧
    pin.IsRunning
      (pin.Stop ⟨false, fun _ => false⟩ ["Done"]
        (pin.Start ⟨false, fun _ => false⟩ (pin.New "Doing" [pin.Opt.withWriter ⟨1⟩])).pin).1 = true ∧
    (pin.Fail ⟨false, fun _ => false⟩ ["Done"]
        (pin.Start ⟨false, fun _ => false⟩ (pin.New "Doing" [pin.Opt.withWriter ⟨1⟩])).pin).2 =
      [⟨pin.stdoutSink, "Done\n"⟩] ∧
    pin.IsRunning
      (pin.Fail ⟨false, fun _ => false⟩ ["Done"]
        (pin.Start ⟨false, fun _ => false⟩ (pin.New "Doing" [pin.Opt.withWriter ⟨1⟩])).pin).1 = true := by
  decide

/-- C2 counterexample: on a spinner that was never started, with a
non-interactive destination, `Stop("X")` is not a silent no-op: it emits
output, refuting the claim that Stop/Fail/UpdateMessage are silent
no-ops on every destination when not running. -/
theorem stop_before_start_emits_output :
    pin.IsRunning (pin.New "Init" [pin.Opt.withWriter ⟨1⟩]) = false ∧
    (pin.Stop ⟨false, fun _ => false⟩ ["X"] (pin.New "Init" [pin.Opt.withWriter ⟨1⟩])).2 =
      [⟨pin.stdoutSink, "X\n"⟩] ∧
    (pin.Stop ⟨false, fun _ => false⟩ ["X"] (pin.New "Init" [pin.Opt.withWriter ⟨1⟩])).2 ≠ [] := by
  decide

/-- C2 (amended): for a spinner that is not running, Stop and Fail are
silent no-ops only when the destination is classified interactive at call
time; on a non-interactive destination they still write the provided
final message (nothing when none) and leave the state unchanged, and
UpdateMessage always stores the new message, writing it as a plain line
exactly when the destination is non-interactive. -/
theorem not_running_stop_fail_update_behavior :
    (∀ (env : pin.Env) (p : pin.Pin) (msgs : List String),
        pin.isTerminal env p.out = true → p.isRunning = false →
        pin.Stop env msgs p = (p, []) ∧ pin.Fail env msgs p = (p, [])) ∧
    (∀ (env : pin.Env) (p : pin.Pin) (m : String) (rest : List String),
        pin.isTerminal env p.out = false → p.isRunning = false →
        pin.Stop env [] p = (p, []) ∧ pin.Fail env [] p = (p, []) ∧
        pin.Stop env (m :: rest) p = (p, [pin.fmtPrintln m]) ∧
        pin.Fail env (m :: rest) p = (p, [pin.fmtPrintln m])) ∧
    (∀ (env : pin.Env) (p : pin.Pin) (m : String),
        p.isRunning = false →
        (pin.UpdateMessage env m p).1 = { p with message := m } ∧
        (pin.UpdateMessage env m p).2 =
          (if pin.isTerminal env p.out then ([] : List pin.Write) else [pin.fmtPrintln m])) := by
  refine ⟨?_, ?_, ?_⟩
  · intro env p msgs ht hr
    constructor <;>
      simp [pin.Stop, pin.Fail, pin.handleNonTerminal, ht, hr]
  · intro env p m rest ht hr
    refine ⟨?_, ?_, ?_, ?_⟩ <;>
      simp [pin.Stop, pin.Fail, pin.handleNonTerminal, ht, hr]
  · intro env p m _
    by_cases ht : pin.isTerminal env p.out <;>
      simp [pin.UpdateMessage, ht]

/-- Witness for the amended C2 at concrete non-running spinners: an
interactive one ignores `Stop("X")` silently; a non-interactive one
prints the line; `UpdateMessage` stores the message. -/
theorem not_running_stop_fail_update_behavior_witness :
    pin.isTerminal ⟨true, fun _ => false⟩ (pin.New "a" []).out = true ∧
    (pin.New "a" []).isRunning = false ∧
    pin.Stop ⟨true, fun _ => false⟩ ["X"] (pin.New "a" []) = (pin.New "a" [], []) ∧
    pin.isTerminal ⟨false, fun _ => false⟩ (pin.New "a" [pin.Opt.withWriter ⟨1⟩]).out = false ∧
    pin.Stop ⟨false, fun _ => false⟩ ["X"] (pin.New "a" [pin.Opt.withWriter ⟨1⟩]) =
      (pin.New "a" [pin.Opt.withWriter ⟨1⟩], [pin.fmtPrintln "X"]) ∧
    (pin.UpdateMessage ⟨true, fun _ => false⟩ "u" (pin.New "a" [])).1 =
      { pin.New "a" [] with message := "u" } :=
  ⟨by decide, by decide,
    (not_running_stop_fail_update_behavior.1 ⟨true, fun _ => false⟩ (pin.New "a" []) ["X"]
      (by decide) (by decide)).1,
    by decide,
    (not_running_stop_fail_update_behavior.2.1 ⟨false, fun _ => false⟩
      (pin.New "a" [pin.Opt.withWriter ⟨1⟩]) "X" [] (by decide) (by decide)).2.2.1,
    (not_running_stop_fail_update_behavior.2.2 ⟨true, fun _ => false⟩ (pin.New "a" []) "u"
      (by decide)).1⟩

/-- C3 (code evaluated at the failing input): with a custom writer of
sink id 1 configured through `WithWriter`, every write `Start`,
`UpdateMessage` and the animation tick perform still targets the process
stdout (sink 0), not the configured writer — the configured writer is
consulted only by the interactivity check. -/
theorem writes_target_process_stdout_not_configured_writer :
    (pin.New "msg" [pin.Opt.withWriter ⟨1⟩]).out.sinkId = 1 ∧
    (pin.Start ⟨false, fun _ => false⟩ (pin.New "msg" [pin.Opt.withWriter ⟨1⟩])).output =
      [⟨pin.stdoutSink, "msg\n"⟩] ∧
    (pin.UpdateMessage ⟨false, fun _ => false⟩ "upd" (pin.New "msg" [pin.Opt.withWriter ⟨1⟩])).2 =
      [⟨pin.stdoutSink, "upd\n"⟩] ∧
    Option.map (fun r => r.2.sink) (pin.renderTick (pin.New "msg" [pin.Opt.withWriter ⟨1⟩])) =
      some pin.stdoutSink ∧
    pin.stdoutSink ≠ (pin.New "msg" [pin.Opt.withWriter ⟨1⟩]).out.sinkId := by
  decide

/-- C4 (code evaluated at the failing input): on a non-interactive
destination `Start` does write the current message as one line and does
launch the context-waiter task that clears the running flag on context
cancellation — but the function it returns is the inert `func() {}`,
which cancels no context, so invoking it leaves the running flag true. -/
theorem nonInteractive_start_returns_inert_cancel :
    pin.Start ⟨false, fun _ => false⟩ (pin.New "m" [pin.Opt.withWriter ⟨1⟩]) =
      ⟨{ pin.New "m" [pin.Opt.withWriter ⟨1⟩] with isRunning := true },
        [⟨pin.stdoutSink, "m\n"⟩], some pin.BgTask.ctxWaiter, pin.CancelBehavior.inert⟩ ∧
    pin.onContextCancel pin.BgTask.ctxWaiter
        { pin.New "m" [pin.Opt.withWriter ⟨1⟩] with isRunning := true } =
      (pin.New "m" [pin.Opt.withWriter ⟨1⟩], []) ∧
    pin.CancelBehavior.inert ≠ pin.CancelBehavior.cancelCtx := by
  decide

/-- C5 counterexample: a spinner whose destination was classified
non-interactive when `Start` ran (global force flag off, no char device)
is nevertheless handled by the interactive protocol when `Stop` runs
after the global force-interactive flag was set: the classification is
not the one fixed at Start. -/
theorem interactivity_reclassified_after_start :
    pin.isTerminal ⟨false, fun _ => false⟩ (pin.New "m" [pin.Opt.withWriter ⟨1⟩]).out = false ∧
    (pin.Stop ⟨true, fun _ => false⟩ ["done"]
        (pin.Start ⟨false, fun _ => false⟩ (pin.New "m" [pin.Opt.withWriter ⟨1⟩])).pin).2 ≠
      [pin.fmtPrintln "done"] := by
  decide

/-- C5 (amended): a destination is classified interactive iff the global
force-interactive flag is set or the destination is a character device;
but the decision is re-evaluated against the ambient state at every call
rather than fixed at Start: Start records nothing about it (its state
effect is the same under either classification), and Stop, Fail and
UpdateMessage depend on the ambient state only through the classification
computed at their own call time. -/
theorem interactivity_evaluated_per_call :
    (∀ (env : pin.Env) (w : pin.Writer),
        pin.isTerminal env w = true ↔
          env.ForceInteractive = true ∨ env.charDevice w.sinkId = true) ∧
    (∀ (env : pin.Env) (p : pin.Pin),
        (pin.Start env p).pin = if p.isRunning then p else { p with isRunning := true }) ∧
    (∀ (e1 e2 : pin.Env) (p : pin.Pin) (msgs : List String) (m : String),
        pin.isTerminal e1 p.out = pin.isTerminal e2 p.out →
        pin.Stop e1 msgs p = pin.Stop e2 msgs p ∧
        pin.Fail e1 msgs p = pin.Fail e2 msgs p ∧
        pin.UpdateMessage e1 m p = pin.UpdateMessage e2 m p) := by
  refine ⟨?_, ?_, ?_⟩
  · intro env w
    unfold pin.isTerminal
    by_cases h : env.ForceInteractive <;> simp [h]
  · intro env p
    by_cases hr : p.isRunning <;>
      by_cases ht : pin.isTerminal env p.out <;>
      simp [pin.Start, hr, ht]
  · intro e1 e2 p msgs m h
    refine ⟨?_, ?_, ?_⟩ <;>
      simp only [pin.Stop, pin.Fail, pin.UpdateMessage, pin.handleNonTerminal, h]

/-- Witness for the amended C5: two ambient states agreeing on the
classification give identical Stop results, and the iff at a concrete
forced-interactive state. -/
theorem interactivity_evaluated_per_call_witness :
    pin.isTerminal ⟨true, fun _ => false⟩ (pin.defaultPin "m").out =
      pin.isTerminal ⟨true, fun _ => true⟩ (pin.defaultPin "m").out ∧
    pin.Stop ⟨true, fun _ => false⟩ ["x"] (pin.defaultPin "m") =
      pin.Stop ⟨true, fun _ => true⟩ ["x"] (pin.defaultPin "m") ∧
    (pin.isTerminal ⟨true, fun _ => false⟩ pin.osStdout = true ↔
      (true : Bool) = true ∨ (fun _ => false : Nat → Bool) pin.osStdout.sinkId = true) :=
  ⟨by decide,
    (interactivity_evaluated_per_call.2.2 ⟨true, fun _ => false⟩ ⟨true, fun _ => true⟩
      (pin.defaultPin "m") ["x"] "u" (by decide)).1,
    interactivity_evaluated_per_call.1 ⟨true, fun _ => false⟩ pin.osStdout⟩

/-- C7 counterexample: with the done symbol configured to equal the fail
symbol ('✖') and a fail color configured (red), `Stop` colors the final
message with the fail color, not the standard text color (whose code
here is the empty string): the claim "Stop always colors the final
message with the standard text color" fails on this configuration. -/
theorem stop_uses_fail_color_when_symbols_collide :
    (pin.Stop ⟨true, fun _ => false⟩ ["m"]
        { pin.New "t" [pin.Opt.withDoneSymbol '✖', pin.Opt.withFailColor pin.ColorRed] with
            isRunning := true }).2 =
      [⟨pin.stdoutSink, "\r\x1b[K"⟩, ⟨pin.stdoutSink, "\x1b[32m✖\x1b[0m \x1b[31mm\x1b[0m\n"⟩] ∧
    pin.getColorCode
        (pin.New "t" [pin.Opt.withDoneSymbol '✖', pin.Opt.withFailColor pin.ColorRed]).textColor =
      "" ∧
    (pin.Stop ⟨true, fun _ => false⟩ ["m"]
        { pin.New "t" [pin.Opt.withDoneSymbol '✖', pin.Opt.withFailColor pin.ColorRed] with
            isRunning := true }).2 ≠
      [⟨pin.stdoutSink, "\r\x1b[K"⟩, ⟨pin.stdoutSink, "\x1b[32m✖\x1b[0m m\x1b[0m\n"⟩] := by
  decide

/-- C7 (amended): Stop and Fail both refine the single halt protocol of
the spec, instantiated with the done- resp. fail-symbol/color pair; the
final message color is chosen by comparing the printed symbol with the
configured fail symbol: Fail uses the dedicated fail color when one is
configured and otherwise the standard text color, and Stop uses the
standard text color except when the done symbol equals the fail symbol
and a fail color is configured, in which case Stop also uses the fail
color. -/
theorem stop_fail_share_halt_protocol :
    (∀ (env : pin.Env) (msgs : List String) (p : pin.Pin),
        pin.Stop env msgs p = pin.haltProtocolSpec env msgs p p.doneSymbol p.doneSymbolColor ∧
        pin.Fail env msgs p = pin.haltProtocolSpec env msgs p p.failSymbol p.failSymbolColor) ∧
    (∀ p : pin.Pin, p.failColor ≠ pin.ColorDefault →
        pin.printResultMsgColor p p.failSymbol = pin.getColorCode p.failColor) ∧
    (∀ p : pin.Pin, p.failColor = pin.ColorDefault →
        pin.printResultMsgColor p p.failSymbol = pin.getColorCode p.textColor) ∧
    (∀ p : pin.Pin, p.doneSymbol ≠ p.failSymbol →
        pin.printResultMsgColor p p.doneSymbol = pin.getColorCode p.textColor) := by
  refine ⟨fun env msgs p => ⟨rfl, rfl⟩, ?_, ?_, ?_⟩
  · intro p h
    unfold pin.printResultMsgColor
    rw [if_pos ⟨rfl, h⟩]
  · intro p h
    unfold pin.printResultMsgColor
    rw [if_neg]
    intro hc
    exact hc.2 h
  · intro p h
    unfold pin.printResultMsgColor
    rw [if_neg]
    intro hc
    exact h hc.1

/-- Witness for the amended C7 at concrete configurations: the shared
protocol instance, the fail-color selection when configured, the
fallback when not, and the text color for a distinct done symbol. -/
theorem stop_fail_share_halt_protocol_witness :
    pin.Stop ⟨false, fun _ => false⟩ ["x"] (pin.defaultPin "m") =
      pin.haltProtocolSpec ⟨false, fun _ => false⟩ ["x"] (pin.defaultPin "m")
        (pin.defaultPin "m").doneSymbol (pin.defaultPin "m").doneSymbolColor ∧
    (pin.New "m" [pin.Opt.withFailColor pin.ColorRed]).failColor ≠ pin.ColorDefault ∧
    pin.printResultMsgColor (pin.New "m" [pin.Opt.withFailColor pin.ColorRed])
        (pin.New "m" [pin.Opt.withFailColor pin.ColorRed]).failSymbol =
      pin.getColorCode (pin.New "m" [pin.Opt.withFailColor pin.ColorRed]).failColor ∧
    pin.printResultMsgColor (pin.defaultPin "m") (pin.defaultPin "m").failSymbol =
      pin.getColorCode (pin.defaultPin "m").textColor ∧
    pin.printResultMsgColor (pin.defaultPin "m") (pin.defaultPin "m").doneSymbol =
      pin.getColorCode (pin.defaultPin "m").textColor :=
  ⟨(stop_fail_share_halt_protocol.1 ⟨false, fun _ => false⟩ ["x"] (pin.defaultPin "m")).1,
    by decide,
    stop_fail_share_halt_protocol.2.1 (pin.New "m" [pin.Opt.withFailColor pin.ColorRed])
      (by decide),
    stop_fail_share_halt_protocol.2.2.1 (pin.defaultPin "m") (by decide),
    stop_fail_share_halt_protocol.2.2.2 (pin.defaultPin "m") (by decide)⟩
